import Mathlib

/-!
Verification development for the surrogate-model core of the repository
(`baybe/surrogates/base.py`): the fit/transform/posterior lifecycle, its
precondition checks, the Gaussian posterior construction, the latin-1 codec
for pretrained-model byte payloads, and the serialization hooks.

Conventions of the embedding:
* Machine floats are modelled by `ℚ`; a dataframe cell is `Option ℚ`, with
  `none` playing the role of NaN / a missing value.
* Python exceptions are modelled by `Except PyError`; stateful methods pass
  the object state explicitly and return the state as it stands when an
  exception propagates, so that partial mutation is observable.
* Collaborator objects that live outside the embedded module (search space,
  objective, the abstract subclass primitives, torch/sklearn scalers) are
  modelled from their documented interfaces; their failure modes are wrapped
  in the `PyError.external` constructor, keeping them distinct from the
  exceptions raised by the embedded module itself.
-/

namespace Baybe

/- `Rat.mul`, `Rat.sub`, `Rat.add` and `Rat.inv` are `@[irreducible]` in the
ambient library, which blocks `decide`-style evaluation of concrete rational
computations; restore the ordinary reducibility of these plain definitions. -/
attribute [local semireducible] Rat.mul Rat.sub Rat.add Rat.inv

/-- Python exception classes raised by `baybe/surrogates/base.py`. Exceptions
raised by external collaborator code (the objective, the subclass fitting or
posterior primitives) are opaque to this module and are wrapped as `external`
with a tag. -/
inductive PyError where
  | valueError (msg : String)
  | notImplementedError (msg : String)
  | modelNotTrainedError (msg : String)
  | attributeError
  | external (tag : String)
deriving DecidableEq, Repr

deriving instance DecidableEq for Except

/-- A pandas dataframe: a row index and a list of named columns of cells.
A cell is `none` for NaN (missing value) and `some q` for a numeric value. -/
structure DataFrame where
  index : List Nat
  cols : List (String × List (Option ℚ))
deriving DecidableEq, Repr

/-- `df.columns`. -/
def DataFrame.columns (df : DataFrame) : List String :=
  df.cols.map Prod.fst

/-- Lookup of a column by name; `none` when the frame has no such column. -/
def DataFrame.getCol? (df : DataFrame) (c : String) : Option (List (Option ℚ)) :=
  (df.cols.find? (fun p => p.1 == c)).map Prod.snd

/-- Column access defaulting to an all-NaN column when the name is absent
(the NaN fill used by `DataFrame.reindex`). -/
def DataFrame.getCol (df : DataFrame) (c : String) : List (Option ℚ) :=
  (df.getCol? c).getD (df.index.map (fun _ => none))

/-- `df.reindex(columns=cs)`, also used for column selection `df[cs]`:
the result has exactly the columns `cs`, existing columns keep their values,
missing ones are filled with NaN. -/
def DataFrame.reindexColumns (df : DataFrame) (cs : List String) : DataFrame :=
  { index := df.index, cols := cs.map (fun c => (c, df.getCol c)) }

/-- `to_tensor`: the row-major cell matrix of a frame. -/
def DataFrame.values (df : DataFrame) : List (List (Option ℚ)) :=
  (List.range df.index.length).map (fun k => df.cols.map (fun p => p.2.getD k none))

/-- Modelled from the spec: a parameter of the search space, with its name and
the names of the computational-representation columns it contributes
(`Parameter.comp_rep_columns`). The parameter classes themselves live outside
the embedded module. -/
structure Parameter where
  name : String
  comp_rep_columns : List String
deriving DecidableEq, Repr

/-- Modelled from the spec: the narrow interface of `SearchSpace` consumed by
the surrogate module — the ordered parameter list, the composite
computational-representation column names and per-column bounds, the count of
task-parameter groups, whether the continuous part is empty, and the
experimental-to-computational `transform` operation. The `transform` field
models `SearchSpace.transform(df, allow_extra=True)` as a pure total function,
per the spec's single-threaded, side-effect-free collaborator contract. -/
structure SearchSpace where
  parameters : List Parameter
  comp_rep_columns : List String
  comp_rep_bounds : String → ℚ × ℚ
  n_tasks : Nat
  continuous_is_empty : Bool
  transform : DataFrame → DataFrame

/-- Modelled from the spec: the `Objective` collaborator, offering a
`transform` mapping a measurements frame to a target frame. Being external
code, its failures are opaque; they are modelled as `Except` with a tag. -/
structure Objective where
  transform : DataFrame → Except String DataFrame

/-- sklearn's `_handle_zeros_in_scale`: a zero data range is replaced by 1 so
that constant features are left centred instead of dividing by zero. -/
def handle_zeros_in_scale (x : ℚ) : ℚ :=
  if x = 0 then 1 else x

/-- A `MinMaxScaler` fitted on data minimum `lo` and maximum `hi` (feature
range `[0, 1]`): `x ↦ (x - lo) / (hi - lo)` with the zero-range guard. -/
def minmaxTransform (lo hi x : ℚ) : ℚ :=
  (x - lo) / handle_zeros_in_scale (hi - lo)

/-- `Surrogate._make_parameter_scaler`: the scaler to be used for the given
parameter. The base-class default returns a fresh `MinMaxScaler` for every
parameter (`some ()`); `none` would mean "passthrough". -/
def _make_parameter_scaler (p : Parameter) : Option Unit :=
  some ()

/-- A fitted sklearn `ColumnTransformer`: for each output column, its name and
its fitted per-column scaler — `none` for passthrough, `some (lo, hi)` for a
`MinMaxScaler` fitted on bounds `(lo, hi)`. -/
structure FittedColumnTransformer where
  columns : List (String × Option (ℚ × ℚ))
deriving DecidableEq, Repr

/-- `get_feature_names_out` of the fitted column transformer (with
`verbose_feature_names_out=False`): the transformed column names in
transformer order. -/
def FittedColumnTransformer.get_feature_names_out (t : FittedColumnTransformer) : List String :=
  t.columns.map Prod.fst

/-- Application of one fitted per-column scaler to a cell; NaN propagates. -/
def cellScale (sc : Option (ℚ × ℚ)) (x : Option ℚ) : Option ℚ :=
  match sc with
  | none => x
  | some (lo, hi) => x.map (fun v => minmaxTransform lo hi v)

/-- `ColumnTransformer.transform`: select each fitted column by name from the
input frame and apply its scaler, producing the raw (unlabelled) column-major
array. A column absent from the frame is modelled as an all-NaN column (sklearn
would raise there; no claim in scope distinguishes the two behaviours). -/
def FittedColumnTransformer.transform (t : FittedColumnTransformer) (df : DataFrame) :
    List (List (Option ℚ)) :=
  t.columns.map (fun p => (df.getCol p.1).map (cellScale p.2))

/-- `Surrogate._make_input_scaler`: build the composite column transformer from
the parameter-wise scalers — for each parameter, its computational columns that
survive in the search space, scaled by its parameter scaler (or passthrough
when the parameter scaler is `None`) — and fit it against the search space's
declared computational-representation bounds (`searchspace.comp_rep_bounds`),
not against measurement data. -/
def _make_input_scaler (searchspace : SearchSpace) : FittedColumnTransformer :=
  { columns :=
      (searchspace.parameters.map (fun p =>
        (p.comp_rep_columns.filter (fun c => searchspace.comp_rep_columns.contains c)).map
          (fun c => (c, (_make_parameter_scaler p).map (fun _ => searchspace.comp_rep_bounds c))))).flatten }

/-- The fitted parameters of botorch's `Standardize(1)` outcome transform:
per output column, the column mean and the (Bessel-corrected, clamped)
standard deviation computed from the data seen at fit time. A NaN in a column
makes its statistics NaN (`none`). Real square roots are irrational in
general; `Rat.sqrt` models torch's square root exactly on perfect-square
radicands (which all concrete inputs in this file are), and no claim in scope
depends on the standardized values. -/
structure StandardizeFitted where
  means : List (Option ℚ)
  stdvs : List (Option ℚ)
deriving DecidableEq, Repr

/-- Column mean, with NaN propagation. -/
def colMean (xs : List (Option ℚ)) : Option ℚ :=
  (xs.mapM id).map (fun l => l.sum / (l.length : ℚ))

/-- Column standard deviation as used by `Standardize`: Bessel-corrected, and
values below the minimum stdv `1e-8` are replaced by `1`. -/
def colStdClamped (xs : List (Option ℚ)) : Option ℚ :=
  (xs.mapM id).map (fun l =>
    let mu := l.sum / (l.length : ℚ)
    let sd := Rat.sqrt ((l.map (fun x => (x - mu) ^ 2)).sum / ((l.length : ℚ) - 1))
    if sd < 1 / 100000000 then 1 else sd)

/-- Fitting `Standardize` on the (computational-representation) target frame:
record per-column means and stdvs. -/
def standardizeFit (dft : DataFrame) : StandardizeFitted :=
  { means := dft.cols.map (fun p => colMean p.2),
    stdvs := dft.cols.map (fun p => colStdClamped p.2) }

/-- Application of the fitted `Standardize` to the cell of output column `j`:
`(x - mean_j) / stdv_j`, with NaN propagation. -/
def applyStandardize (sc : StandardizeFitted) (j : Nat) (x : Option ℚ) : Option ℚ :=
  match x, (sc.means.getD j none), (sc.stdvs.getD j none) with
  | some v, some mu, some sd => some ((v - mu) / sd)
  | _, _, _ => none

/-- The value held in `Surrogate._output_scaler` once fitted: either the
`_IDENTITY_TRANSFORM` sentinel (`_NoTransform.IDENTITY_TRANSFORM`, used when
`_make_target_scaler` returns `None`) or a fitted `Standardize` transform. -/
inductive OutputScalerValue where
  | identity_transform
  | standardize (sc : StandardizeFitted)
deriving DecidableEq, Repr

/-- `Surrogate._make_target_scaler`: the scaler to be used for target scaling.
The base-class default returns a fresh `Standardize(1)` (`some ()`); `none`
would mean no target scaling. -/
def _make_target_scaler : Option Unit :=
  some ()

/-- `Surrogate._make_output_scaler`: build the output scaler; when
`_make_target_scaler` yields `None`, return the identity sentinel, otherwise
fit the scaler on the objective-transformed measurements and freeze it. -/
def _make_output_scaler (objective : Objective) (measurements : DataFrame) :
    Except String OutputScalerValue :=
  match _make_target_scaler with
  | none => .ok .identity_transform
  | some _ =>
    match objective.transform measurements with
    | .error e => .error e
    | .ok dft => .ok (.standardize (standardizeFit dft))

/-- The state captured by the `transform_inputs` closure created in
`Surrogate.fit`: the search space and the fitted input scaler. -/
structure InputTransformState where
  searchspace : SearchSpace
  input_scaler : FittedColumnTransformer

/-- The state captured by the `transform_outputs` closure created in
`Surrogate.fit`: the objective and the fitted output scaler. -/
structure OutputTransformState where
  objective : Objective
  output_scaler : OutputScalerValue

/-- A canonical model of Python's `list(set(xs).intersection(ys))`: within one
interpreter run, set iteration order for strings is determined by the set's
contents, so the expression is a contents-determined, duplicate-free
enumeration of `{x ∈ xs | x ∈ ys}`; we model it by the canonically sorted
enumeration. -/
def pySetIntersection (xs ys : List String) : List String :=
  List.insertionSort (fun a b => a ≤ b) ((xs.filter (fun c => ys.contains c)).dedup)

/-- First step of the `transform_inputs` closure defined inside
`Surrogate.fit`: collect all computational-representation columns of the
parameters that are actually present in the given dataframe (`comp_rep_cols`
in the source). -/
def fitCompRepCols (searchspace : SearchSpace) (df : DataFrame) : List String :=
  ((df.columns.filter (fun c => (searchspace.parameters.map Parameter.name).contains c)).map
    (fun col =>
      match searchspace.parameters.find? (fun p => p.name == col) with
      | some p => p.comp_rep_columns
      | none => [])).flatten

/-- Middle steps of the `transform_inputs` closure: augment the dataframe with
NaN columns for the missing parameters, apply the search-space transform and
the fitted input scaler, and reattach the original index and the scaler's
output column names (`out` in the source). -/
def fitScaledFrame (st : InputTransformState) (df : DataFrame) : DataFrame :=
  { index := df.index,
    cols := List.zip st.input_scaler.get_feature_names_out
      (st.input_scaler.transform
        (st.searchspace.transform
          (df.reindexColumns (st.searchspace.parameters.map Parameter.name)))) }

/-- Body of the `transform_inputs` closure defined inside `Surrogate.fit`:
the scaled frame, narrowed down to the collected computational columns that
the scaler actually produced (`out[comp_rep_cols]` in the source, with the
set intersection `set(comp_rep_cols).intersection(out.columns)`). -/
def applyInputTransform (st : InputTransformState) (df : DataFrame) : DataFrame :=
  (fitScaledFrame st df).reindexColumns
    (pySetIntersection (fitCompRepCols st.searchspace df) (fitScaledFrame st df).columns)

/-- Body of the `transform_outputs` closure defined inside `Surrogate.fit`:
apply the objective transform; unless the identity sentinel is in effect,
apply the fitted output scaler and restore index and column labels. -/
def applyOutputTransform (st : OutputTransformState) (df : DataFrame) :
    Except String DataFrame :=
  match st.objective.transform df with
  | .error e => .error e
  | .ok dft =>
    match st.output_scaler with
    | .identity_transform => .ok dft
    | .standardize sc =>
      .ok { index := df.index,
            cols := dft.cols.enum.map (fun q => (q.2.1, q.2.2.map (applyStandardize sc q.1))) }

/-- Python's substring test `pat in s`. -/
def strContainsSub (s pat : String) : Bool :=
  decide (pat.toList <:+: s.toList)

/-- A multivariate-normal posterior, represented by its mean vector and
covariance matrix (`MultivariateNormal` wrapped in `GPyTorchPosterior`). -/
structure Posterior where
  mean : List ℚ
  covar : List (List ℚ)
deriving DecidableEq, Repr

/-- `Standardize.untransform_posterior` for one output dimension: map the
posterior moments back to the original target scale. NaN statistics leave the
moments untouched only in the degenerate unfitted case; concrete claims in
scope never inspect these values. -/
def untransform_posterior (sc : StandardizeFitted) (p : Posterior) : Posterior :=
  match sc.means.getD 0 none, sc.stdvs.getD 0 none with
  | some mu, some sd =>
    { mean := p.mean.map (fun m => m * sd + mu),
      covar := p.covar.map (fun row => row.map (fun v => v * sd ^ 2)) }
  | _, _ => p

/-- The surrogate: the two class-level capability flags, the Python class name
(used nominally by `fit`'s capability checks and the serialization blocker),
the abstract subclass primitives `_fit` and `_posterior` (external code whose
failures are opaque tags), and the three fitted-state slots, all `None` until
`fit` has stored them. -/
structure Surrogate where
  joint_posterior : Bool
  supports_transfer_learning : Bool
  class_name : String
  _fit : List (List (Option ℚ)) → List (List (Option ℚ)) → Option Unit → Except String Unit
  _posterior : List (List (Option ℚ)) → Except String Posterior
  _input_transform : Option InputTransformState := none
  _output_transform : Option OutputTransformState := none
  _output_scaler : Option OutputScalerValue := none

/-- `Surrogate.transform_inputs`: guard on the fitted input transform, then
delegate to the stored closure. -/
def Surrogate.transform_inputs (s : Surrogate) (df : DataFrame) : Except PyError DataFrame :=
  match s._input_transform with
  | none => .error (.modelNotTrainedError "The model must be trained first.")
  | some st => .ok (applyInputTransform st df)

/-- `Surrogate.transform_outputs`: guard on the fitted output transform, then
delegate to the stored closure. -/
def Surrogate.transform_outputs (s : Surrogate) (df : DataFrame) : Except PyError DataFrame :=
  match s._output_transform with
  | none => .error (.modelNotTrainedError "The model must be trained first.")
  | some st =>
    match applyOutputTransform st df with
    | .error e => .error (.external e)
    | .ok r => .ok r

/-- `Surrogate.posterior`: transform the candidates with the stored input
transform, delegate to the subclass `_posterior` primitive, and — whenever the
output scaler is not the identity sentinel — apply its inverse transform.
When `_output_scaler` is still `None`, Python would call a method on `None`
(an `AttributeError`); that branch is unreachable through `fit`. -/
def Surrogate.posterior (s : Surrogate) (candidates : DataFrame) : Except PyError Posterior :=
  match s.transform_inputs candidates with
  | .error e => .error e
  | .ok tx =>
    match s._posterior tx.values with
    | .error e => .error (.external e)
    | .ok p =>
      match s._output_scaler with
      | some .identity_transform => .ok p
      | some (.standardize sc) => .ok (untransform_posterior sc p)
      | none => .error .attributeError

/-- The message of the `ValueError` raised by `fit`'s transfer-learning
capability check (an f-string embedding the surrogate's class name). -/
def taskCheckMsg (s : Surrogate) : String :=
  "The search space contains task parameters but the selected "
    ++ "surrogate model type (" ++ s.class_name ++ ") does not "
    ++ "support transfer learning."

/-- The message of the `NotImplementedError` raised by `fit`'s
continuous-space capability check. -/
def continuousCheckMsg : String :=
  "Continuous search spaces are currently only supported by GPs."

/-- `Surrogate._get_model_context`: by default, no context is created. -/
def _get_model_context (searchspace : SearchSpace) (objective : Objective) : Option Unit :=
  none

/-- `Surrogate.fit`, with the object state passed explicitly: the result of
the call together with the state as it stands when the call returns or an
exception propagates. The precondition checks and the scaler constructions
run before the fitted-state slots are overwritten; the measurement transforms
and the `_fit` primitive run after. -/
def Surrogate.fit (s : Surrogate) (searchspace : SearchSpace) (objective : Objective)
    (measurements : DataFrame) : Except PyError Unit × Surrogate :=
  if searchspace.n_tasks > 1 ∧ s.supports_transfer_learning = false then
    (.error (.valueError (taskCheckMsg s)), s)
  else if searchspace.continuous_is_empty = false
      ∧ strContainsSub s.class_name "GaussianProcess" = false then
    (.error (.notImplementedError continuousCheckMsg), s)
  else
    let input_scaler := _make_input_scaler searchspace
    match _make_output_scaler objective measurements with
    | .error e => (.error (.external e), s)
    | .ok output_scaler =>
      let s1 : Surrogate :=
        { s with
          _input_transform := some ⟨searchspace, input_scaler⟩,
          _output_transform := some ⟨objective, output_scaler⟩,
          _output_scaler := some output_scaler }
      match s1.transform_inputs measurements with
      | .error e => (.error e, s1)
      | .ok train_x =>
        match s1.transform_outputs measurements with
        | .error e => (.error e, s1)
        | .ok train_y =>
          match s1._fit train_x.values train_y.values (_get_model_context searchspace objective) with
          | .error e => (.error (.external e), s1)
          | .ok _ => (.ok (), s1)

/-- A torch tensor as handed around by `GaussianSurrogate._posterior`: the
second moment is a 1-D tensor of marginal variances or a 2-D covariance
matrix, depending on the `joint_posterior` flag. -/
inductive MomentTensor where
  | vec (v : List ℚ)
  | mat (m : List (List ℚ))
  | cube (c : List (List (List ℚ)))
deriving DecidableEq, Repr

/-- The diagonal matrix with diagonal `v`. -/
def diagMat (v : List ℚ) : List (List ℚ) :=
  (List.range v.length).map (fun i =>
    (List.range v.length).map (fun j => if i = j then v.getD i 0 else 0))

/-- `torch.diag_embed`: embeds a 1-D tensor as a diagonal matrix and a 2-D
tensor as a batch of diagonal matrices. (A 3-D input would produce a 4-D
tensor, not representable here and unreached by the contract of
`_estimate_moments`.) -/
def torch_diag_embed : MomentTensor → MomentTensor
  | .vec v => .mat (diagMat v)
  | .mat m => .cube (m.map diagMat)
  | .cube c => .cube c

/-- `GaussianSurrogate._posterior`: estimate the first and second moments via
the subclass primitive `_estimate_moments` and, when `joint_posterior` is
false, embed the marginal variances as an uncorrelated (diagonal) covariance
matrix; then construct the multivariate normal from mean and covariance
(represented here by the resulting pair). -/
def GaussianSurrogate_posterior (joint_posterior : Bool)
    (estimate_moments : List (List (Option ℚ)) → List ℚ × MomentTensor)
    (candidates : List (List (Option ℚ))) : List ℚ × MomentTensor :=
  let mv := estimate_moments candidates
  let var := if joint_posterior then mv.2 else torch_diag_embed mv.2
  (mv.1, var)

/-- `bytes.decode(_ONNX_ENCODING)` for `_ONNX_ENCODING = "latin-1"`: each byte
value becomes the character with the same code point. Used by the wrapped
unstructure hook on the `onnx_str` field. -/
def latin1_decode (bs : List (Fin 256)) : List Char :=
  bs.map (fun b => Char.ofNat b.val)

/-- `str.encode(_ONNX_ENCODING)` for `_ONNX_ENCODING = "latin-1"`: each
character with code point below 256 becomes the byte with that value; any
other character makes the encoding fail (`UnicodeEncodeError`). Used by the
wrapped structure hook on the `onnx_str` field. -/
def latin1_encode : List Char → Option (List (Fin 256))
  | [] => some []
  | c :: cs =>
    if h : c.toNat < 256 then
      match latin1_encode cs with
      | some bs => some (⟨c.toNat, h⟩ :: bs)
      | none => none
    else none

/-- A value of a field in the unstructured (serialized) representation of a
surrogate: a text field, a byte-string field, or any other payload. (Python's
`bytes.decode` on a non-bytes value would raise; the claims in scope only
exercise the byte-string case.) -/
inductive FieldValue where
  | str (s : List Char)
  | bytes (b : List (Fin 256))
  | other (tag : String)
deriving DecidableEq, Repr

/-- The unstructured representation of a surrogate: named fields. -/
abbrev Unstructured := List (String × FieldValue)

/-- The decoding applied to the `onnx_str` entry by the wrapped unstructure
hook: a byte-string payload is turned into text via the latin-1 codec. -/
def decodeOnnxValue : FieldValue → FieldValue
  | .bytes b => .str (latin1_decode b)
  | v => v

/-- `_make_hook_decode_onnx_str`: wrap an unstructuring hook to let it also
decode the contained ONNX byte string, when an `onnx_str` field is present. -/
def _make_hook_decode_onnx_str (raw_unstructure_hook : Surrogate → Except PyError Unstructured)
    (obj : Surrogate) : Except PyError Unstructured :=
  match raw_unstructure_hook obj with
  | .error e => .error e
  | .ok dct =>
    if (dct.find? (fun q => q.1 == "onnx_str")).isSome then
      .ok (dct.map (fun q => if q.1 == "onnx_str" then (q.1, decodeOnnxValue q.2) else q))
    else
      .ok dct

/-- `_block_serialize_custom_architecture`: raise an error when asked to
serialize a custom-architecture surrogate, before invoking the raw hook;
delegate every other variant to the raw hook unchanged. -/
def _block_serialize_custom_architecture
    (raw_unstructure_hook : Surrogate → Except PyError Unstructured)
    (obj : Surrogate) : Except PyError Unstructured :=
  if obj.class_name = "CustomArchitectureSurrogate" then
    .error (.notImplementedError
      ("Serializing objects of type \x27CustomArchitectureSurrogate\x27 "
        ++ "is not supported."))
  else
    raw_unstructure_hook obj

/-- The unstructure hook registered for `Surrogate`: the raw base unstructure
hook (which omits the live `_model` reference), wrapped by the serialization
blocker and then by the ONNX decoder. -/
def surrogate_unstructure_hook (raw_unstructure_hook : Surrogate → Except PyError Unstructured)
    (obj : Surrogate) : Except PyError Unstructured :=
  _make_hook_decode_onnx_str (_block_serialize_custom_architecture raw_unstructure_hook) obj

/-! ### Concrete instances for witnesses and counterexamples -/

/-- A minimal search space for concrete evaluations: one parameter `"p"`
contributing one computational column `"pc"` with bounds `[0, 10]`; no task
parameters; empty continuous part; the transform renames the experimental
column `"p"` to the computational column `"pc"`. -/
def sampleSearchSpace : SearchSpace :=
  { parameters := [{ name := "p", comp_rep_columns := ["pc"] }],
    comp_rep_columns := ["pc"],
    comp_rep_bounds := fun _ => (0, 10),
    n_tasks := 0,
    continuous_is_empty := true,
    transform := fun d => { index := d.index, cols := [("pc", d.getCol "p")] } }

/-- The sample search space with two task-parameter groups. -/
def sampleTaskSearchSpace : SearchSpace :=
  { sampleSearchSpace with n_tasks := 2 }

/-- The sample search space with a non-empty continuous part. -/
def sampleContinuousSearchSpace : SearchSpace :=
  { sampleSearchSpace with continuous_is_empty := false }

/-- The sample search space with both a non-empty continuous part and two
task-parameter groups. -/
def sampleTaskContinuousSearchSpace : SearchSpace :=
  { sampleSearchSpace with continuous_is_empty := false, n_tasks := 2 }

/-- A one-row frame sharing the parameter column `"p"` with
`sampleMeasurements` but carrying an unrelated extra column `"z"`. -/
def sampleExtraColumnFrame : DataFrame :=
  { index := [0], cols := [("p", [some 5]), ("z", [some 9])] }

/-- A one-row frame with no overlap with the search-space parameters. -/
def sampleForeignFrame : DataFrame :=
  { index := [7], cols := [("z", [some 1])] }

/-- A sample objective selecting the target column `"y"`. -/
def sampleObjective : Objective :=
  { transform := fun d => .ok { index := d.index, cols := [("y", d.getCol "y")] } }

/-- A one-row measurements table with parameter value 5 and target value 2. -/
def sampleMeasurements : DataFrame :=
  { index := [0], cols := [("p", [some 5]), ("y", [some 2])] }

/-- An untrained non-GP surrogate whose subclass fitting primitive fails. -/
def sampleFailingSurrogate : Surrogate :=
  { joint_posterior := false,
    supports_transfer_learning := false,
    class_name := "RandomForestSurrogate",
    _fit := fun _ _ _ => .error "numerical fitting failure",
    _posterior := fun _ => .ok { mean := [], covar := [] } }

/-- An untrained non-GP surrogate whose subclass fitting primitive succeeds. -/
def sampleOkSurrogate : Surrogate :=
  { sampleFailingSurrogate with _fit := fun _ _ _ => .ok () }

/-- An untrained GP-family surrogate. -/
def sampleGPSurrogate : Surrogate :=
  { sampleOkSurrogate with
    class_name := "GaussianProcessSurrogate",
    supports_transfer_learning := true }

/-- A surrogate of the custom-architecture variant. -/
def sampleCustomArchSurrogate : Surrogate :=
  { sampleOkSurrogate with class_name := "CustomArchitectureSurrogate" }

/-- The surrogate obtained from a successful sample `fit` call. -/
def sampleFittedSurrogate : Surrogate :=
  (sampleOkSurrogate.fit sampleSearchSpace sampleObjective sampleMeasurements).2

/-- The sample fitted input-transform state. -/
def sampleInputState : InputTransformState :=
  { searchspace := sampleSearchSpace, input_scaler := _make_input_scaler sampleSearchSpace }


/-! ### Helper lemmas about the dataframe and pipeline primitives -/

theorem contains_iff_mem (l : List String) (a : String) : l.contains a = true ↔ a ∈ l := by
  simp [List.contains_iff_exists_mem_beq]

theorem getCol?_isSome_iff_mem_columns (df : DataFrame) (c : String) :
    (df.getCol? c).isSome = true ↔ c ∈ df.columns := by
  unfold DataFrame.getCol? DataFrame.columns
  cases hf : df.cols.find? (fun p => p.1 == c) with
  | none =>
    rw [List.find?_eq_none] at hf
    simp only [Option.map_none', Option.isSome_none, Bool.false_eq_true, false_iff,
      List.mem_map, not_exists]
    intro q h
    exact hf q h.1 (by simp [h.2])
  | some q =>
    simp only [Option.map_some', Option.isSome_some, true_iff, List.mem_map]
    exact ⟨q, List.mem_of_find?_eq_some hf, by simpa using List.find?_some hf⟩

theorem find?_beq_self {cs : List String} {c : String} (h : c ∈ cs) :
    cs.find? (fun x => x == c) = some c := by
  cases hf : cs.find? (fun x => x == c) with
  | none =>
    rw [List.find?_eq_none] at hf
    exact absurd (by simp : (c == c) = true) (hf c h)
  | some a =>
    have := List.find?_some hf
    simp only [beq_iff_eq] at this
    rw [this]

theorem reindexColumns_getCol? (df : DataFrame) (cs : List String) (c : String) :
    (df.reindexColumns cs).getCol? c =
      if c ∈ cs then some (df.getCol c) else none := by
  simp only [DataFrame.reindexColumns, DataFrame.getCol?]
  rw [List.find?_map]
  by_cases h : c ∈ cs
  · rw [if_pos h]
    have : cs.find? ((fun p : String × List (Option ℚ) => p.1 == c) ∘
        (fun c => (c, df.getCol c))) = some c := find?_beq_self h
    rw [this]
    rfl
  · rw [if_neg h]
    have : cs.find? ((fun p : String × List (Option ℚ) => p.1 == c) ∘
        (fun c => (c, df.getCol c))) = none := by
      rw [List.find?_eq_none]
      intro x hx
      simp only [Function.comp_apply, beq_iff_eq]
      intro he
      exact h (he ▸ hx)
    rw [this]
    rfl

theorem reindexColumns_getCol (df : DataFrame) (cs : List String) (c : String) (h : c ∈ cs) :
    (df.reindexColumns cs).getCol c = df.getCol c := by
  rw [DataFrame.getCol, reindexColumns_getCol?, if_pos h]
  rfl

theorem reindexColumns_columns (df : DataFrame) (cs : List String) :
    (df.reindexColumns cs).columns = cs := by
  simp [DataFrame.reindexColumns, DataFrame.columns, List.map_map, Function.comp_def]

theorem reindexColumns_congr (df1 df2 : DataFrame) (cs : List String)
    (hidx : df1.index = df2.index)
    (hcols : ∀ c ∈ cs, df1.getCol? c = df2.getCol? c) :
    df1.reindexColumns cs = df2.reindexColumns cs := by
  simp only [DataFrame.reindexColumns, hidx, DataFrame.mk.injEq, true_and]
  apply List.map_congr_left
  intro c hc
  rw [DataFrame.getCol, DataFrame.getCol, hcols c hc, hidx]

theorem mem_pySetIntersection (xs ys : List String) (a : String) :
    a ∈ pySetIntersection xs ys ↔ a ∈ xs ∧ a ∈ ys := by
  unfold pySetIntersection
  rw [(List.perm_insertionSort _ _).mem_iff, List.mem_dedup, List.mem_filter]
  rw [contains_iff_mem]

theorem pySetIntersection_congr (xs xs' ys : List String)
    (h : ∀ a, a ∈ xs ↔ a ∈ xs') :
    pySetIntersection xs ys = pySetIntersection xs' ys := by
  unfold pySetIntersection
  apply List.eq_of_perm_of_sorted (r := fun a b : String => a ≤ b)
  · have hmid : ((xs.filter (fun c => ys.contains c)).dedup).Perm
        ((xs'.filter (fun c => ys.contains c)).dedup) := by
      rw [List.perm_ext_iff_of_nodup (List.nodup_dedup _) (List.nodup_dedup _)]
      intro a
      rw [List.mem_dedup, List.mem_dedup, List.mem_filter, List.mem_filter, h a]
    exact ((List.perm_insertionSort _ _).trans hmid).trans
      (List.perm_insertionSort _ _).symm
  · exact List.sorted_insertionSort _ _
  · exact List.sorted_insertionSort _ _

theorem minmaxTransform_unit_interval (lo hi x : ℚ) (h1 : lo ≤ x) (h2 : x ≤ hi) :
    0 ≤ minmaxTransform lo hi x ∧ minmaxTransform lo hi x ≤ 1 := by
  unfold minmaxTransform handle_zeros_in_scale
  by_cases h : hi - lo = 0
  · rw [if_pos h]
    constructor
    · rw [div_one]; linarith
    · rw [div_one]; linarith
  · rw [if_neg h]
    have hlt : 0 < hi - lo := by
      rcases lt_or_eq_of_le (by linarith : lo ≤ hi) with hl | hl
      · linarith
      · exact absurd (by linarith) h
    constructor
    · exact div_nonneg (by linarith) (le_of_lt hlt)
    · exact (div_le_one hlt).2 (by linarith)

theorem make_input_scaler_bounds (ss : SearchSpace) (q : String × Option (ℚ × ℚ))
    (hq : q ∈ (_make_input_scaler ss).columns) :
    q.2 = some (ss.comp_rep_bounds q.1) := by
  simp only [_make_input_scaler, List.mem_flatten, List.mem_map] at hq
  obtain ⟨l, ⟨p, hp, hl⟩, hql⟩ := hq
  subst hl
  simp only [List.mem_map] at hql
  obtain ⟨c, hc, hqc⟩ := hql
  subst hqc
  rfl

theorem fitScaledFrame_cols (st : InputTransformState) (df : DataFrame) :
    (fitScaledFrame st df).cols =
      st.input_scaler.columns.map (fun q =>
        (q.1, ((st.searchspace.transform
            (df.reindexColumns (st.searchspace.parameters.map Parameter.name))).getCol q.1).map
          (cellScale q.2))) := by
  unfold fitScaledFrame FittedColumnTransformer.get_feature_names_out
    FittedColumnTransformer.transform
  rw [List.zip_map']

theorem fitScaledFrame_columns (st : InputTransformState) (df : DataFrame) :
    (fitScaledFrame st df).columns = st.input_scaler.get_feature_names_out := by
  unfold DataFrame.columns
  rw [fitScaledFrame_cols, List.map_map]
  rfl

theorem fitScaledFrame_getCol? (st : InputTransformState) (df : DataFrame) (c : String) :
    (fitScaledFrame st df).getCol? c =
      (st.input_scaler.columns.find? (fun q => q.1 == c)).map (fun q =>
        ((st.searchspace.transform
            (df.reindexColumns (st.searchspace.parameters.map Parameter.name))).getCol q.1).map
          (cellScale q.2)) := by
  unfold DataFrame.getCol?
  rw [fitScaledFrame_cols, List.find?_map, Option.map_map]
  rfl

theorem fitCompRepCols_mem_congr (ss : SearchSpace) (df1 df2 : DataFrame)
    (h : ∀ c ∈ ss.parameters.map Parameter.name, (c ∈ df1.columns ↔ c ∈ df2.columns)) :
    ∀ a, a ∈ fitCompRepCols ss df1 ↔ a ∈ fitCompRepCols ss df2 := by
  intro a
  unfold fitCompRepCols
  simp only [List.mem_flatten, List.mem_map, List.mem_filter, contains_iff_mem]
  constructor
  · rintro ⟨l, ⟨col, ⟨hcol1, hcolp⟩, hl⟩, hal⟩
    exact ⟨l, ⟨col, ⟨(h col (List.mem_map.mpr hcolp)).1 hcol1, hcolp⟩, hl⟩, hal⟩
  · rintro ⟨l, ⟨col, ⟨hcol2, hcolp⟩, hl⟩, hal⟩
    exact ⟨l, ⟨col, ⟨(h col (List.mem_map.mpr hcolp)).2 hcol2, hcolp⟩, hl⟩, hal⟩

/-! ### Case analysis of `Surrogate.fit` -/

theorem fit_task_check (s : Surrogate) (ss : SearchSpace) (obj : Objective) (m : DataFrame)
    (h : ss.n_tasks > 1 ∧ s.supports_transfer_learning = false) :
    s.fit ss obj m = (.error (.valueError (taskCheckMsg s)), s) := by
  unfold Surrogate.fit
  rw [if_pos h]

theorem fit_continuous_check (s : Surrogate) (ss : SearchSpace) (obj : Objective) (m : DataFrame)
    (hn : ¬(ss.n_tasks > 1 ∧ s.supports_transfer_learning = false))
    (h : ss.continuous_is_empty = false ∧ strContainsSub s.class_name "GaussianProcess" = false) :
    s.fit ss obj m = (.error (.notImplementedError continuousCheckMsg), s) := by
  unfold Surrogate.fit
  rw [if_neg hn, if_pos h]

theorem fit_output_scaler_error (s : Surrogate) (ss : SearchSpace) (obj : Objective)
    (m : DataFrame) (e : String)
    (hn1 : ¬(ss.n_tasks > 1 ∧ s.supports_transfer_learning = false))
    (hn2 : ¬(ss.continuous_is_empty = false ∧ strContainsSub s.class_name "GaussianProcess" = false))
    (he : _make_output_scaler obj m = .error e) :
    s.fit ss obj m = (.error (.external e), s) := by
  unfold Surrogate.fit
  rw [if_neg hn1, if_neg hn2, he]

theorem fit_mutation (s : Surrogate) (ss : SearchSpace) (obj : Objective) (m : DataFrame)
    (osc : OutputScalerValue)
    (hn1 : ¬(ss.n_tasks > 1 ∧ s.supports_transfer_learning = false))
    (hn2 : ¬(ss.continuous_is_empty = false ∧ strContainsSub s.class_name "GaussianProcess" = false))
    (hosc : _make_output_scaler obj m = .ok osc) :
    (s.fit ss obj m).2 =
      { s with _input_transform := some ⟨ss, _make_input_scaler ss⟩,
               _output_transform := some ⟨obj, osc⟩,
               _output_scaler := some osc }
    ∧ ((s.fit ss obj m).1 = .ok () ∨ ∃ e, (s.fit ss obj m).1 = .error (.external e)) := by
  unfold Surrogate.fit
  rw [if_neg hn1, if_neg hn2, hosc]
  dsimp only [Surrogate.transform_inputs, Surrogate.transform_outputs]
  cases hot : applyOutputTransform ⟨obj, osc⟩ m with
  | error e =>
    exact ⟨rfl, .inr ⟨e, rfl⟩⟩
  | ok r =>
    dsimp only
    cases hf : s._fit (applyInputTransform ⟨ss, _make_input_scaler ss⟩ m).values r.values
        (_get_model_context ss obj) with
    | error e =>
      exact ⟨rfl, .inr ⟨e, rfl⟩⟩
    | ok u =>
      exact ⟨rfl, .inl rfl⟩

theorem fit_ok_state (s : Surrogate) (ss : SearchSpace) (obj : Objective) (m : DataFrame)
    (h : (s.fit ss obj m).1 = .ok ()) :
    ∃ osc, _make_output_scaler obj m = .ok osc ∧
      (s.fit ss obj m).2 =
        { s with _input_transform := some ⟨ss, _make_input_scaler ss⟩,
                 _output_transform := some ⟨obj, osc⟩,
                 _output_scaler := some osc } := by
  by_cases h1 : ss.n_tasks > 1 ∧ s.supports_transfer_learning = false
  · rw [fit_task_check s ss obj m h1] at h
    simp at h
  · by_cases h2 : ss.continuous_is_empty = false
        ∧ strContainsSub s.class_name "GaussianProcess" = false
    · rw [fit_continuous_check s ss obj m h1 h2] at h
      simp at h
    · cases hos : _make_output_scaler obj m with
      | error e =>
        rw [fit_output_scaler_error s ss obj m e h1 h2 hos] at h
        simp at h
      | ok osc =>
        exact ⟨osc, rfl, (fit_mutation s ss obj m osc h1 h2 hos).1⟩


theorem transform_outputs_no_modelNotTrained (s : Surrogate) (st : OutputTransformState)
    (df : DataFrame) (h : s._output_transform = some st) :
    ∀ msg, s.transform_outputs df ≠ .error (.modelNotTrainedError msg) := by
  intro msg
  unfold Surrogate.transform_outputs
  rw [h]
  dsimp only
  cases hot : applyOutputTransform st df <;> simp

theorem posterior_no_modelNotTrained (s : Surrogate) (st : InputTransformState)
    (df : DataFrame) (h : s._input_transform = some st) :
    ∀ msg, s.posterior df ≠ .error (.modelNotTrainedError msg) := by
  intro msg
  unfold Surrogate.posterior Surrogate.transform_inputs
  rw [h]
  dsimp only
  cases s._posterior (applyInputTransform st df).values with
  | error e => simp
  | ok p =>
    cases hsc : s._output_scaler with
    | none => simp
    | some osc => cases osc <;> simp

/-! ### Claim theorems -/

/-- C1 (amended): for every surrogate whose fitted transforms are unset — in
particular every freshly constructed surrogate — `transform_inputs`,
`transform_outputs` and `posterior` raise `ModelNotTrainedError`; after `fit`
has completed successfully, all three operations pass the trained-state guard.
(The claim's wider premise "fit has never completed successfully" fails on the
code: a `fit` invocation whose subclass primitive raises has already installed
the transforms.) -/
theorem C1_model_not_trained_guard (s : Surrogate) (df : DataFrame) (ss : SearchSpace)
    (obj : Objective) (m : DataFrame) :
    (s._input_transform = none →
      s.transform_inputs df = .error (.modelNotTrainedError "The model must be trained first."))
  ∧ (s._output_transform = none →
      s.transform_outputs df = .error (.modelNotTrainedError "The model must be trained first."))
  ∧ (s._input_transform = none →
      s.posterior df = .error (.modelNotTrainedError "The model must be trained first."))
  ∧ ((s.fit ss obj m).1 = .ok () →
      (∃ r, (s.fit ss obj m).2.transform_inputs df = .ok r)
      ∧ (∀ msg, (s.fit ss obj m).2.transform_outputs df ≠ .error (.modelNotTrainedError msg))
      ∧ (∀ msg, (s.fit ss obj m).2.posterior df ≠ .error (.modelNotTrainedError msg))) := by
  refine ⟨?_, ?_, ?_, ?_⟩
  · intro h
    simp [Surrogate.transform_inputs, h]
  · intro h
    simp [Surrogate.transform_outputs, h]
  · intro h
    simp [Surrogate.posterior, Surrogate.transform_inputs, h]
  · intro h
    obtain ⟨osc, hosc, hstate⟩ := fit_ok_state s ss obj m h
    rw [hstate]
    refine ⟨⟨applyInputTransform ⟨ss, _make_input_scaler ss⟩ df, rfl⟩, ?_, ?_⟩
    · exact transform_outputs_no_modelNotTrained _ ⟨obj, osc⟩ df rfl
    · exact posterior_no_modelNotTrained _ ⟨ss, _make_input_scaler ss⟩ df rfl

/-- C1 counterexample: after a `fit` invocation that fails in the subclass
fitting primitive (so `fit` has never completed successfully),
`transform_inputs` returns a value instead of raising `ModelNotTrainedError`. -/
theorem C1_counterexample :
    (sampleFailingSurrogate.fit sampleSearchSpace sampleObjective sampleMeasurements).1
      = .error (.external "numerical fitting failure")
  ∧ (sampleFailingSurrogate.fit sampleSearchSpace sampleObjective
      sampleMeasurements).2.transform_inputs sampleMeasurements
      = .ok { index := [0], cols := [("pc", [some (1/2)])] } := by
  exact ⟨by decide, by decide⟩

/-- C1 witness: a freshly constructed surrogate raises the trained-state
error, and after a successful `fit` the guard passes. -/
theorem C1_witness :
    sampleOkSurrogate.transform_inputs sampleMeasurements
      = .error (.modelNotTrainedError "The model must be trained first.")
  ∧ (sampleOkSurrogate.fit sampleSearchSpace sampleObjective sampleMeasurements).1 = .ok ()
  ∧ ∃ r, (sampleOkSurrogate.fit sampleSearchSpace sampleObjective
      sampleMeasurements).2.transform_inputs sampleMeasurements = .ok r := by
  refine ⟨(C1_model_not_trained_guard sampleOkSurrogate sampleMeasurements sampleSearchSpace
      sampleObjective sampleMeasurements).1 rfl, by decide, ?_⟩
  exact ((C1_model_not_trained_guard sampleOkSurrogate sampleMeasurements sampleSearchSpace
      sampleObjective sampleMeasurements).2.2.2 (by decide)).1

/-- C2 (amended): `fit` is atomic through its precondition checks and scaler
constructions — errors raised there leave the fitted state exactly as before
the call — but an error raised by the transform of the measurements or by the
subclass fitting primitive `_fit` occurs after the new transforms were
stored, so in that case the prior fitted (or untrained) state is not
preserved: the state then holds the newly built transforms. -/
theorem C2_fit_atomicity (s : Surrogate) (ss : SearchSpace) (obj : Objective) (m : DataFrame) :
    ((ss.n_tasks > 1 ∧ s.supports_transfer_learning = false) → (s.fit ss obj m).2 = s)
  ∧ ((ss.continuous_is_empty = false ∧ strContainsSub s.class_name "GaussianProcess" = false) →
      (s.fit ss obj m).2 = s)
  ∧ (∀ e, _make_output_scaler obj m = .error e → (s.fit ss obj m).2 = s)
  ∧ (∀ osc, ¬(ss.n_tasks > 1 ∧ s.supports_transfer_learning = false) →
      ¬(ss.continuous_is_empty = false ∧ strContainsSub s.class_name "GaussianProcess" = false) →
      _make_output_scaler obj m = .ok osc →
      (s.fit ss obj m).2 =
        { s with _input_transform := some ⟨ss, _make_input_scaler ss⟩,
                 _output_transform := some ⟨obj, osc⟩,
                 _output_scaler := some osc }) := by
  refine ⟨?_, ?_, ?_, ?_⟩
  · intro h
    rw [fit_task_check s ss obj m h]
  · intro h
    by_cases h1 : ss.n_tasks > 1 ∧ s.supports_transfer_learning = false
    · rw [fit_task_check s ss obj m h1]
    · rw [fit_continuous_check s ss obj m h1 h]
  · intro e he
    by_cases h1 : ss.n_tasks > 1 ∧ s.supports_transfer_learning = false
    · rw [fit_task_check s ss obj m h1]
    · by_cases h2 : ss.continuous_is_empty = false
          ∧ strContainsSub s.class_name "GaussianProcess" = false
      · rw [fit_continuous_check s ss obj m h1 h2]
      · rw [fit_output_scaler_error s ss obj m e h1 h2 he]
  · intro osc h1 h2 hosc
    exact (fit_mutation s ss obj m osc h1 h2 hosc).1

/-- C2 counterexample: an untrained surrogate whose `_fit` primitive raises.
The `fit` call raises, yet the fitted state is not "exactly as it was before
the call": `_input_transform` changed from `None` to an installed transform. -/
theorem C2_counterexample :
    (sampleFailingSurrogate.fit sampleSearchSpace sampleObjective sampleMeasurements).1
      = .error (.external "numerical fitting failure")
  ∧ sampleFailingSurrogate._input_transform = none
  ∧ ((sampleFailingSurrogate.fit sampleSearchSpace sampleObjective
      sampleMeasurements).2._input_transform).isSome = true := by
  exact ⟨by decide, rfl, by decide⟩

/-- C2 witness: each atomic stage of the amended claim, at concrete inputs:
the transfer-learning check and a failing objective both leave the state
untouched, and a passing run stores the new transforms. -/
theorem C2_witness :
    (sampleFailingSurrogate.fit sampleTaskSearchSpace sampleObjective sampleMeasurements).2
      = sampleFailingSurrogate
  ∧ (sampleFailingSurrogate.fit sampleSearchSpace sampleObjective sampleMeasurements).2
      = { sampleFailingSurrogate with
          _input_transform := some ⟨sampleSearchSpace, _make_input_scaler sampleSearchSpace⟩,
          _output_transform := some ⟨sampleObjective,
            .standardize (standardizeFit { index := [0], cols := [("y", [some 2])] })⟩,
          _output_scaler := some (.standardize
            (standardizeFit { index := [0], cols := [("y", [some 2])] })) } := by
  constructor
  · exact (C2_fit_atomicity sampleFailingSurrogate sampleTaskSearchSpace sampleObjective
      sampleMeasurements).1 ⟨by decide, rfl⟩
  · exact (C2_fit_atomicity sampleFailingSurrogate sampleSearchSpace sampleObjective
      sampleMeasurements).2.2.2 _ (by decide) (by decide) rfl

/-- C3: when the search space declares more than one task-parameter group and
the surrogate does not support transfer learning, `fit` raises the
capability-mismatch `ValueError` before any fitting or mutation; with at most
one task-parameter group, no capability-mismatch `ValueError` is ever
raised by `fit`. -/
theorem C3_transfer_learning_check (s : Surrogate) (ss : SearchSpace) (obj : Objective)
    (m : DataFrame) :
    (ss.n_tasks > 1 → s.supports_transfer_learning = false →
      s.fit ss obj m = (.error (.valueError (taskCheckMsg s)), s))
  ∧ (ss.n_tasks ≤ 1 →
      ∀ msg, (s.fit ss obj m).1 ≠ .error (.valueError msg)) := by
  constructor
  · intro h1 h2
    exact fit_task_check s ss obj m ⟨h1, h2⟩
  · intro hle msg
    have hn1 : ¬(ss.n_tasks > 1 ∧ s.supports_transfer_learning = false) := by
      intro hc
      exact absurd hc.1 (by omega)
    by_cases h2 : ss.continuous_is_empty = false
        ∧ strContainsSub s.class_name "GaussianProcess" = false
    · rw [fit_continuous_check s ss obj m hn1 h2]
      simp
    · cases hos : _make_output_scaler obj m with
      | error e =>
        rw [fit_output_scaler_error s ss obj m e hn1 h2 hos]
        simp
      | ok osc =>
        rcases (fit_mutation s ss obj m osc hn1 h2 hos).2 with hok | ⟨e, he⟩
        · rw [hok]
          simp
        · rw [he]
          simp

/-- C3 witness: a surrogate without transfer-learning support against two
task-parameter groups raises the capability-mismatch error with unchanged
state; with zero task groups `fit` raises no `ValueError`. -/
theorem C3_witness :
    sampleFailingSurrogate.fit sampleTaskSearchSpace sampleObjective sampleMeasurements
      = (.error (.valueError (taskCheckMsg sampleFailingSurrogate)), sampleFailingSurrogate)
  ∧ ∀ msg, (sampleFailingSurrogate.fit sampleSearchSpace sampleObjective sampleMeasurements).1
      ≠ .error (.valueError msg) := by
  constructor
  · exact (C3_transfer_learning_check sampleFailingSurrogate sampleTaskSearchSpace
      sampleObjective sampleMeasurements).1 (by decide) rfl
  · exact (C3_transfer_learning_check sampleFailingSurrogate sampleSearchSpace
      sampleObjective sampleMeasurements).2 (by decide)

/-- C4 (amended): with a non-empty continuous part, a non-GP surrogate is
rejected by `fit` with the `NotImplementedError`, provided the
transfer-learning check does not fire first (it precedes the continuous
check and its `ValueError` takes priority); GP-family surrogates never
receive this `NotImplementedError` from `fit`. -/
theorem C4_continuous_check (s : Surrogate) (ss : SearchSpace) (obj : Objective)
    (m : DataFrame) :
    ((ss.n_tasks ≤ 1 ∨ s.supports_transfer_learning = true) →
      ss.continuous_is_empty = false →
      strContainsSub s.class_name "GaussianProcess" = false →
      s.fit ss obj m = (.error (.notImplementedError continuousCheckMsg), s))
  ∧ (strContainsSub s.class_name "GaussianProcess" = true →
      ∀ msg, (s.fit ss obj m).1 ≠ .error (.notImplementedError msg)) := by
  constructor
  · intro hpass hc hgp
    have hn1 : ¬(ss.n_tasks > 1 ∧ s.supports_transfer_learning = false) := by
      intro hc2
      rcases hpass with h | h
      · exact absurd hc2.1 (by omega)
      · rw [h] at hc2
        exact Bool.noConfusion hc2.2
    exact fit_continuous_check s ss obj m hn1 ⟨hc, hgp⟩
  · intro hgp msg
    by_cases h1 : ss.n_tasks > 1 ∧ s.supports_transfer_learning = false
    · rw [fit_task_check s ss obj m h1]
      simp
    · have h2 : ¬(ss.continuous_is_empty = false
          ∧ strContainsSub s.class_name "GaussianProcess" = false) := by
        intro hc
        rw [hgp] at hc
        exact Bool.noConfusion hc.2
      cases hos : _make_output_scaler obj m with
      | error e =>
        rw [fit_output_scaler_error s ss obj m e h1 h2 hos]
        simp
      | ok osc =>
        rcases (fit_mutation s ss obj m osc h1 h2 hos).2 with hok | ⟨e, he⟩
        · rw [hok]
          simp
        · rw [he]
          simp

/-- C4 counterexample: a search space with a non-empty continuous part and a
non-GP surrogate where `fit` does not raise the `NotImplementedError` the
claim promises — the transfer-learning `ValueError` fires first. -/
theorem C4_counterexample :
    (sampleFailingSurrogate.fit sampleTaskContinuousSearchSpace sampleObjective
      sampleMeasurements).1 = .error (.valueError (taskCheckMsg sampleFailingSurrogate))
  ∧ ∀ msg, (sampleFailingSurrogate.fit sampleTaskContinuousSearchSpace sampleObjective
      sampleMeasurements).1 ≠ .error (.notImplementedError msg) := by
  have h : (sampleFailingSurrogate.fit sampleTaskContinuousSearchSpace sampleObjective
      sampleMeasurements).1 = .error (.valueError (taskCheckMsg sampleFailingSurrogate)) := by
    decide
  refine ⟨h, ?_⟩
  intro msg hmsg
  rw [h] at hmsg
  simp at hmsg

/-- C4 witness: a non-GP surrogate against a continuous search space (with
the task check passing) receives the `NotImplementedError`; a GP surrogate
against the same search space does not. -/
theorem C4_witness :
    sampleFailingSurrogate.fit sampleContinuousSearchSpace sampleObjective sampleMeasurements
      = (.error (.notImplementedError continuousCheckMsg), sampleFailingSurrogate)
  ∧ (sampleGPSurrogate.fit sampleContinuousSearchSpace sampleObjective sampleMeasurements).1
      ≠ .error (.notImplementedError continuousCheckMsg) := by
  constructor
  · exact (C4_continuous_check sampleFailingSurrogate sampleContinuousSearchSpace
      sampleObjective sampleMeasurements).1 (.inl (by decide)) rfl (by decide)
  · exact (C4_continuous_check sampleGPSurrogate sampleContinuousSearchSpace
      sampleObjective sampleMeasurements).2 (by decide) continuousCheckMsg

theorem diagMat_offdiag (v : List ℚ) (i j : Nat) (h : i ≠ j) :
    ((diagMat v).getD i []).getD j 0 = 0 := by
  unfold diagMat
  by_cases hi : i < v.length
  · have h1 : (List.map (fun i => List.map (fun j => if i = j then v.getD i 0 else 0)
        (List.range v.length)) (List.range v.length)).getD i []
        = List.map (fun j => if i = j then v.getD i 0 else 0) (List.range v.length) := by
      rw [List.getD_eq_getElem?_getD, List.getElem?_map, List.getElem?_range hi]
      rfl
    rw [h1]
    by_cases hj : j < v.length
    · rw [List.getD_eq_getElem?_getD, List.getElem?_map, List.getElem?_range hj]
      simp [h]
    · rw [List.getD_eq_getElem?_getD, List.getElem?_eq_none (by simpa using hj)]
      rfl
  · have h1 : (List.map (fun i => List.map (fun j => if i = j then v.getD i 0 else 0)
        (List.range v.length)) (List.range v.length)).getD i [] = [] := by
      rw [List.getD_eq_getElem?_getD, List.getElem?_eq_none (by simpa using hi)]
      rfl
    rw [h1]
    rfl

/-- C5: for a Gaussian surrogate with `joint_posterior = False`, the 1-D
marginal-variance vector returned by `_estimate_moments` is embedded as a
diagonal covariance matrix before the multivariate normal is built, so the
posterior's covariance has all off-diagonal entries exactly zero; with
`joint_posterior = True` the second moment is used unchanged. -/
theorem C5_gaussian_covariance (em : List (List (Option ℚ)) → List ℚ × MomentTensor)
    (cands : List (List (Option ℚ))) (mean : List ℚ) (v : List ℚ)
    (h : em cands = (mean, .vec v)) :
    (GaussianSurrogate_posterior false em cands = (mean, .mat (diagMat v))
      ∧ ∀ i j, i ≠ j → ((diagMat v).getD i []).getD j 0 = 0)
  ∧ (∀ em2 : List (List (Option ℚ)) → List ℚ × MomentTensor,
      ∀ c2, GaussianSurrogate_posterior true em2 c2 = em2 c2) := by
  refine ⟨⟨?_, fun i j hij => diagMat_offdiag v i j hij⟩, ?_⟩
  · simp only [GaussianSurrogate_posterior, h, torch_diag_embed]
    rfl
  · intro em2 c2
    simp [GaussianSurrogate_posterior]

/-- C5 witness: a concrete marginal-variance vector is embedded as the
diagonal matrix, with zero off-diagonal entries. -/
theorem C5_witness :
    GaussianSurrogate_posterior false (fun _ => ([1], .vec [4, 9])) []
      = ([1], .mat [[4, 0], [0, 9]])
  ∧ ((diagMat [4, 9]).getD 0 []).getD 1 0 = 0 := by
  have h := C5_gaussian_covariance (fun _ => ([1], MomentTensor.vec [4, 9])) [] [1] [4, 9] rfl
  constructor
  · rw [h.1.1]
    decide
  · exact h.1.2 0 1 (by decide)

set_option maxRecDepth 4096 in
theorem char_ofNat_toNat_byte : ∀ b : Fin 256, (Char.ofNat b.val).toNat = b.val := by decide

/-- C8: the latin-1 codec used for pretrained-model byte payloads is lossless
on all byte strings: text-encoding a byte string one character per byte
(`latin1_decode`, Python's `bytes.decode`) and then decoding the text back
(`latin1_encode`, Python's `str.encode`) reproduces the byte string exactly,
for every one of the 256 byte values in every position. -/
theorem C8_latin1_roundtrip (bs : List (Fin 256)) :
    latin1_encode (latin1_decode bs) = some bs := by
  induction bs with
  | nil => rfl
  | cons b rest ih =>
    have hc : (Char.ofNat b.val).toNat = b.val := char_ofNat_toNat_byte b
    have hlt : (Char.ofNat b.val).toNat < 256 := by
      rw [hc]
      exact b.isLt
    simp only [latin1_decode, List.map_cons] at ih ⊢
    simp only [latin1_encode]
    rw [dif_pos hlt, ih]
    have hb : (⟨(Char.ofNat b.val).toNat, hlt⟩ : Fin 256) = b := Fin.ext hc
    rw [hb]

/-- C9: the registered unstructure hook raises the `NotImplementedError` for
the custom-architecture variant before consulting the raw unstructuring hook
(so no partial output can be produced, whatever that hook would return), and
unstructures every other variant exactly as the ordinary wrapped hook does. -/
theorem C9_block_custom_architecture
    (raw_unstructure_hook : Surrogate → Except PyError Unstructured) (s : Surrogate) :
    (s.class_name = "CustomArchitectureSurrogate" →
      surrogate_unstructure_hook raw_unstructure_hook s
        = .error (.notImplementedError
            ("Serializing objects of type \x27CustomArchitectureSurrogate\x27 "
              ++ "is not supported.")))
  ∧ (s.class_name ≠ "CustomArchitectureSurrogate" →
      surrogate_unstructure_hook raw_unstructure_hook s
        = _make_hook_decode_onnx_str raw_unstructure_hook s) := by
  constructor
  · intro h
    have hb : _block_serialize_custom_architecture raw_unstructure_hook s
        = .error (.notImplementedError
            ("Serializing objects of type \x27CustomArchitectureSurrogate\x27 "
              ++ "is not supported.")) := by
      unfold _block_serialize_custom_architecture
      rw [if_pos h]
    unfold surrogate_unstructure_hook _make_hook_decode_onnx_str
    rw [hb]
  · intro h
    have hb : _block_serialize_custom_architecture raw_unstructure_hook s
        = raw_unstructure_hook s := by
      unfold _block_serialize_custom_architecture
      rw [if_neg h]
    unfold surrogate_unstructure_hook _make_hook_decode_onnx_str
    rw [hb]

/-- C9 witness: the custom-architecture variant is blocked at a concrete
input (for an arbitrary concrete raw hook), while an ordinary variant is
unstructured as usual, with its ONNX byte payload decoded. -/
theorem C9_witness :
    surrogate_unstructure_hook (fun _ => .ok []) sampleCustomArchSurrogate
      = .error (.notImplementedError
          ("Serializing objects of type \x27CustomArchitectureSurrogate\x27 "
            ++ "is not supported."))
  ∧ surrogate_unstructure_hook (fun _ => .ok [("onnx_str", .bytes [65])]) sampleOkSurrogate
      = _make_hook_decode_onnx_str (fun _ => .ok [("onnx_str", .bytes [65])])
          sampleOkSurrogate := by
  constructor
  · exact (C9_block_custom_architecture (fun _ => .ok []) sampleCustomArchSurrogate).1 rfl
  · exact (C9_block_custom_architecture (fun _ => .ok [("onnx_str", .bytes [65])])
      sampleOkSurrogate).2 (by decide)

theorem getD_none_eq_some (l : List (Option ℚ)) (k : Nat) (x : ℚ)
    (h : l.getD k none = some x) : l[k]? = some (some x) := by
  rw [List.getD_eq_getElem?_getD] at h
  cases hk : l[k]? with
  | none =>
    rw [hk] at h
    exact Option.noConfusion h
  | some a =>
    rw [hk] at h
    simp only [Option.getD_some] at h
    rw [h]

theorem cellScale_some (p : ℚ × ℚ) (x : ℚ) :
    cellScale (some p) (some x) = some (minmaxTransform p.1 p.2 x) := rfl

/-- C6: the input scaler is fitted from the search space's declared bounds
only — a successful `fit` stores an input-transform state that does not
depend on the measurements — and, for the default min-max scaler, every
computational cell produced by the transform pipeline whose pre-scaling value
lies within the declared bounds of its column is mapped into `[0, 1]`. -/
theorem C6_input_scaling (s : Surrogate) (ss : SearchSpace) (obj : Objective) (m : DataFrame)
    (st : InputTransformState) (df : DataFrame) (c : String) (k : Nat) (x : ℚ) :
    ((s.fit ss obj m).1 = .ok () →
      (s.fit ss obj m).2._input_transform = some ⟨ss, _make_input_scaler ss⟩)
  ∧ (st.input_scaler = _make_input_scaler st.searchspace →
      c ∈ (applyInputTransform st df).columns →
      ((st.searchspace.transform (df.reindexColumns
          (st.searchspace.parameters.map Parameter.name))).getCol c).getD k none = some x →
      (st.searchspace.comp_rep_bounds c).1 ≤ x →
      x ≤ (st.searchspace.comp_rep_bounds c).2 →
      ∃ y, ((applyInputTransform st df).getCol c).getD k none = some y
        ∧ 0 ≤ y ∧ y ≤ 1) := by
  constructor
  · intro h
    obtain ⟨osc, hosc, hstate⟩ := fit_ok_state s ss obj m h
    rw [hstate]
  · intro hsc hc hcell hlo hhi
    unfold applyInputTransform at hc ⊢
    rw [reindexColumns_columns] at hc
    have hc2 := (mem_pySetIntersection _ _ _).1 hc
    rw [reindexColumns_getCol _ _ _ hc]
    rw [fitScaledFrame_columns] at hc2
    obtain ⟨q, hqmem, hq1⟩ := List.mem_map.1 hc2.2
    have hfind : (st.input_scaler.columns.find? (fun q => q.1 == c)).isSome = true := by
      rw [List.find?_isSome]
      exact ⟨q, hqmem, by simp [hq1]⟩
    cases hq : st.input_scaler.columns.find? (fun q => q.1 == c) with
    | none =>
      rw [hq] at hfind
      exact Bool.noConfusion hfind
    | some q' =>
      have hq'mem := List.mem_of_find?_eq_some hq
      have hq'1 : q'.1 = c := by simpa using List.find?_some hq
      have hq'2 : q'.2 = some (st.searchspace.comp_rep_bounds q'.1) := by
        apply make_input_scaler_bounds st.searchspace
        rw [← hsc]
        exact hq'mem
      have hgc : (fitScaledFrame st df).getCol c
          = ((st.searchspace.transform (df.reindexColumns
              (st.searchspace.parameters.map Parameter.name))).getCol c).map
            (cellScale (some (st.searchspace.comp_rep_bounds c))) := by
        rw [DataFrame.getCol, fitScaledFrame_getCol?, hq]
        simp only [Option.map_some', Option.getD_some]
        rw [hq'2, hq'1]
      rw [hgc]
      have hk := getD_none_eq_some _ k x hcell
      have hmap : (((st.searchspace.transform (df.reindexColumns
          (st.searchspace.parameters.map Parameter.name))).getCol c).map
            (cellScale (some (st.searchspace.comp_rep_bounds c))))[k]?
          = some (some (minmaxTransform (st.searchspace.comp_rep_bounds c).1
              (st.searchspace.comp_rep_bounds c).2 x)) := by
        rw [List.getElem?_map, hk]
        rfl
      refine ⟨minmaxTransform (st.searchspace.comp_rep_bounds c).1
          (st.searchspace.comp_rep_bounds c).2 x, ?_, ?_⟩
      · rw [List.getD_eq_getElem?_getD, hmap]
        rfl
      · exact minmaxTransform_unit_interval _ _ x hlo hhi

/-- C7: on a fitted surrogate, `transform_inputs` applied to a dataframe
whose columns do not overlap the search-space parameters raises no error and
returns a dataframe with the original row index and zero columns. -/
theorem C7_no_overlap_empty_result (s : Surrogate) (st : InputTransformState) (df : DataFrame)
    (h : s._input_transform = some st)
    (hno : ∀ c ∈ df.columns, c ∉ st.searchspace.parameters.map Parameter.name) :
    s.transform_inputs df = .ok { index := df.index, cols := [] } := by
  unfold Surrogate.transform_inputs
  rw [h]
  dsimp only
  have hcrc : fitCompRepCols st.searchspace df = [] := by
    unfold fitCompRepCols
    have hf : df.columns.filter
        (fun c => (st.searchspace.parameters.map Parameter.name).contains c) = [] := by
      rw [List.filter_eq_nil_iff]
      intro c hc hcontains
      exact hno c hc ((contains_iff_mem _ _).1 hcontains)
    rw [hf]
    rfl
  unfold applyInputTransform
  rw [hcrc]
  rfl

/-- C10: for a fitted input transform, the result depends only on the row
index and on the columns named after search-space parameters: two dataframes
agreeing there (extra columns notwithstanding) transform identically, because
the pipeline reindexes to exactly the declared parameter columns. -/
theorem C10_parameter_column_restriction (st : InputTransformState) (df1 df2 : DataFrame)
    (hidx : df1.index = df2.index)
    (hcols : ∀ c ∈ st.searchspace.parameters.map Parameter.name,
      df1.getCol? c = df2.getCol? c) :
    applyInputTransform st df1 = applyInputTransform st df2 := by
  have haug : df1.reindexColumns (st.searchspace.parameters.map Parameter.name)
      = df2.reindexColumns (st.searchspace.parameters.map Parameter.name) :=
    reindexColumns_congr df1 df2 _ hidx hcols
  have hsf : fitScaledFrame st df1 = fitScaledFrame st df2 := by
    unfold fitScaledFrame
    rw [haug, hidx]
  have hmem : ∀ c ∈ st.searchspace.parameters.map Parameter.name,
      (c ∈ df1.columns ↔ c ∈ df2.columns) := by
    intro c hc
    rw [← getCol?_isSome_iff_mem_columns, ← getCol?_isSome_iff_mem_columns, hcols c hc]
  have hfc : pySetIntersection (fitCompRepCols st.searchspace df1)
        (fitScaledFrame st df2).columns
      = pySetIntersection (fitCompRepCols st.searchspace df2)
        (fitScaledFrame st df2).columns :=
    pySetIntersection_congr _ _ _ (fitCompRepCols_mem_congr st.searchspace df1 df2 hmem)
  unfold applyInputTransform
  rw [hsf, hfc]

/-- C6 witness: a successful concrete `fit` stores the measurement-free
scaler state, and the in-bounds parameter value 5 with declared bounds
`[0, 10]` lands in `[0, 1]` after the fitted transform. -/
theorem C6_witness :
    (sampleOkSurrogate.fit sampleSearchSpace sampleObjective sampleMeasurements).2._input_transform
      = some ⟨sampleSearchSpace, _make_input_scaler sampleSearchSpace⟩
  ∧ ∃ y, ((applyInputTransform sampleInputState sampleMeasurements).getCol "pc").getD 0 none
      = some y ∧ 0 ≤ y ∧ y ≤ 1 := by
  constructor
  · exact (C6_input_scaling sampleOkSurrogate sampleSearchSpace sampleObjective
      sampleMeasurements sampleInputState sampleMeasurements "pc" 0 5).1 (by decide)
  · exact (C6_input_scaling sampleOkSurrogate sampleSearchSpace sampleObjective
      sampleMeasurements sampleInputState sampleMeasurements "pc" 0 5).2
      rfl (by decide) (by decide) (by decide) (by decide)

/-- C7 witness: the sample fitted surrogate, applied to a frame with no
parameter columns, silently returns the empty-column frame with the same
index. -/
theorem C7_witness :
    sampleFittedSurrogate._input_transform = some sampleInputState
  ∧ sampleFittedSurrogate.transform_inputs sampleForeignFrame
      = .ok { index := [7], cols := [] } := by
  have h : sampleFittedSurrogate._input_transform = some sampleInputState := rfl
  exact ⟨h, C7_no_overlap_empty_result sampleFittedSurrogate sampleInputState
    sampleForeignFrame h (by decide)⟩

/-- C10 witness: the extra column `"z"` does not affect the transform — the
frame with it and the frame without it produce identical results. -/
theorem C10_witness :
    applyInputTransform sampleInputState sampleExtraColumnFrame
      = applyInputTransform sampleInputState { index := [0], cols := [("p", [some 5])] } := by
  exact C10_parameter_column_restriction sampleInputState sampleExtraColumnFrame
    { index := [0], cols := [("p", [some 5])] } rfl (by decide)

end Baybe
